import Mathlib

/-!
# University Admission Management System — verification development

Shallow embedding of the admission-workflow engine of `main.py`:
the data model (`Application`, `Allocation`, `Department`), the
operations (`home` bootstrap, `application_form` submission,
`approve_documents` review + seat allocation, and the two merit
listings), and a reachability relation over database states.

Modelling conventions:
* SQLAlchemy rows become structures; tables become lists kept in
  insertion order; autoincrement primary keys become explicit counters
  in the `DB` state.
* `Query.first()` becomes `List.find?`; `Query.all()` with `order_by`
  becomes `List.mergeSort` with the corresponding comparator.
* A request that raises before `db.session.commit()` (e.g. the
  `AttributeError` on a missing application or department) leaves the
  database unchanged, because Flask-SQLAlchemy rolls the session back
  at request teardown; such requests are modelled as `Except.error`
  with no successor state.
* `mail.send` may fail; every call site catches and discards the
  failure (`except: pass`).  Delivery success is modelled by an oracle
  `Nat → Bool` consulted per send; a successful send appends the
  message to the returned notification list, a failed send appends
  nothing, and neither influences the database outcome.
-/

namespace Admission

/-- Row of the `applications` table (class `Application` in `main.py`). -/
structure Application where
  application_id : Nat
  student_id : Nat
  student_name : String
  student_gender : String
  student_email : String
  student_age : Int
  department : String
  entrance_marks : Int
  percentage_10th : Int
  percentage_12th : Int
  document_status : String
  documents : List Nat
deriving Repr, DecidableEq

/-- Row of the `allocations` table (class `Allocation` in `main.py`). -/
structure Allocation where
  allocation_id : Nat
  application_id : Nat
  department_id : Nat
  allocation_status : String
deriving Repr, DecidableEq

/-- Row of the `departments` table (class `Department` in `main.py`). -/
structure Department where
  department_id : Nat
  department_name : String
  total_seats : Int
  filled_seats : Int
deriving Repr, DecidableEq

/-- An outgoing mail message (`flask_mail.Message`). -/
structure Message where
  subject : String
  recipients : List String
  body : String
deriving Repr, DecidableEq

/-- The mutable database state: the three engine tables plus the
autoincrement counters for their primary keys. -/
structure DB where
  applications : List Application
  allocations : List Allocation
  departments : List Department
  nextApplicationId : Nat
  nextAllocationId : Nat
  nextDepartmentId : Nat
deriving Repr, DecidableEq

/-- The empty database (`db.create_all()` on a fresh schema). -/
def DB.init : DB :=
  { applications := []
    allocations := []
    departments := []
    nextApplicationId := 1
    nextAllocationId := 1
    nextDepartmentId := 1 }

/-- Errors surfaced by engine operations (requests that terminate
without committing a state change). -/
inductive AdmissionError where
  | NotFound
  | DuplicateApplication
  | UnknownDepartment
deriving Repr, DecidableEq

/-- Embeds `Application.query.filter_by(student_id=...).first()`. -/
def findApplicationByStudent (db : DB) (sid : Nat) : Option Application :=
  db.applications.find? (fun a => a.student_id == sid)

/-- Embeds `Department.query.filter_by(department_name=...).first()`. -/
def findDepartmentByName (db : DB) (name : String) : Option Department :=
  db.departments.find? (fun d => d.department_name == name)

/-- Embeds `application.document_status = status` on the ORM object found by
primary key: rewrite the row with the given `application_id`. -/
def setDocumentStatus (apps : List Application) (appId : Nat) (status : String) :
    List Application :=
  apps.map (fun a =>
    if a.application_id = appId then { a with document_status := status } else a)

/-- Embeds `department.filled_seats += 1` on the ORM object found by primary
key: increment the row with the given `department_id`. -/
def commitSeat (depts : List Department) (deptId : Nat) : List Department :=
  depts.map (fun d =>
    if d.department_id = deptId then { d with filled_seats := d.filled_seats + 1 } else d)

/-- Embeds `try: mail.send(msg) except: pass` — a successful send delivers the
message, a failed send delivers nothing, and control continues
identically either way. -/
def trySend (ok : Bool) (m : Message) : List Message :=
  if ok then [m] else []

/-- The rejection notification built in `approve_documents`. -/
def rejectionMessage (a : Application) : Message :=
  { subject := "Documents Rejected"
    recipients := [a.student_email]
    body := "Your submitted documents have been rejected by the admissions office." }

/-- The approval notification built in `approve_documents`. -/
def approvalMessage (a : Application) : Message :=
  { subject := "Documents Approved"
    recipients := [a.student_email]
    body := "Your documents have been verified successfully." }

/-- The admission-offer notification built in `approve_documents`. -/
def offerMessage (a : Application) : Message :=
  { subject := "Admission Offer"
    recipients := [a.student_email]
    body := "You have been allotted a seat in the " ++ a.department ++ " department." }

/-- The `/home` route: bootstrap the three default departments when the
`departments` table is empty, otherwise change nothing. -/
def home (db : DB) : DB :=
  if db.departments.isEmpty then
    { db with
      departments :=
        [ { department_id := db.nextDepartmentId
            department_name := "CS"
            total_seats := 300
            filled_seats := 0 },
          { department_id := db.nextDepartmentId + 1
            department_name := "Mechanical"
            total_seats := 100
            filled_seats := 0 },
          { department_id := db.nextDepartmentId + 2
            department_name := "Civil"
            total_seats := 100
            filled_seats := 0 } ]
      nextDepartmentId := db.nextDepartmentId + 3 }
  else db

/-- The form fields posted to `/application-form`. -/
structure ApplicationForm where
  name : String
  age : Int
  gender : String
  email : String
  department : String
  entrance_score : Int
  percentage_10 : Int
  percentage_12 : Int
  documents : List Nat
deriving Repr, DecidableEq

/-- The `Application` row built by the POST branch of
`application_form`, with `document_status = "Pending"`. -/
def mkApplication (appId : Nat) (sid : Nat) (form : ApplicationForm) : Application :=
  { application_id := appId
    student_id := sid
    student_name := form.name
    student_gender := form.gender
    student_email := form.email
    student_age := form.age
    department := form.department
    entrance_marks := form.entrance_score
    percentage_10th := form.percentage_10
    percentage_12th := form.percentage_12
    document_status := "Pending"
    documents := form.documents }

/-- The `/application-form` POST route: reject the request when the
student already owns an application, otherwise insert exactly one new
`Pending` application. -/
def application_form (db : DB) (sid : Nat) (form : ApplicationForm) :
    Except AdmissionError DB :=
  match findApplicationByStudent db sid with
  | some _ => .error .DuplicateApplication
  | none =>
      .ok { db with
        applications := db.applications ++ [mkApplication db.nextApplicationId sid form]
        nextApplicationId := db.nextApplicationId + 1 }

/-- The `/approve-documents` POST route: look up the application by
student id (missing row ⇒ the request dies before commit, modelled as
`NotFound`), set its `document_status` to the posted `status`, and on
`"Approved"` run the allocation step against the department matching
the application's declared department name (missing department ⇒
`UnknownDepartment`): with a free seat commit it and record an
`"Allocated"` allocation, otherwise record a `"Not Allocated"` one.
Returns the successor state together with the delivered notifications. -/
def approve_documents (db : DB) (sid : Nat) (status : String) (mailOk : Nat → Bool) :
    Except AdmissionError (DB × List Message) :=
  match findApplicationByStudent db sid with
  | none => .error .NotFound
  | some application =>
      let deptQuery := findDepartmentByName db application.department
      let apps := setDocumentStatus db.applications application.application_id status
      if status = "Rejected" then
        .ok ({ db with applications := apps },
          trySend (mailOk 0) (rejectionMessage application))
      else if status = "Approved" then
        match deptQuery with
        | none => .error .UnknownDepartment
        | some department =>
            if department.filled_seats < department.total_seats then
              .ok ({ db with
                  applications := apps
                  allocations := db.allocations ++
                    [ { allocation_id := db.nextAllocationId
                        application_id := application.application_id
                        department_id := department.department_id
                        allocation_status := "Allocated" } ]
                  nextAllocationId := db.nextAllocationId + 1
                  departments := commitSeat db.departments department.department_id },
                trySend (mailOk 0) (approvalMessage application) ++
                  trySend (mailOk 1) (offerMessage application))
            else
              .ok ({ db with
                  applications := apps
                  allocations := db.allocations ++
                    [ { allocation_id := db.nextAllocationId
                        application_id := application.application_id
                        department_id := department.department_id
                        allocation_status := "Not Allocated" } ]
                  nextAllocationId := db.nextAllocationId + 1 },
                trySend (mailOk 0) (approvalMessage application))
      else
        .ok ({ db with applications := apps }, [])

/-- The merit ordering used by both listings, as a proposition: the
composite key `(entrance_marks, percentage_12th, percentage_10th,
student_age)` compared descending, first differing attribute decides. -/
def MeritBefore (a b : Application) : Prop :=
  b.entrance_marks < a.entrance_marks ∨ (a.entrance_marks = b.entrance_marks ∧
    (b.percentage_12th < a.percentage_12th ∨ (a.percentage_12th = b.percentage_12th ∧
      (b.percentage_10th < a.percentage_10th ∨ (a.percentage_10th = b.percentage_10th ∧
        b.student_age ≤ a.student_age)))))

instance (a b : Application) : Decidable (MeritBefore a b) := by
  unfold MeritBefore; infer_instance

/-- The comparator realising `order_by(entrance_marks.desc(),
percentage_12th.desc(), percentage_10th.desc(), student_age.desc())`. -/
def meritLE (a b : Application) : Bool :=
  decide (MeritBefore a b)

/-- The GET branch of `/approve-documents`: the pending-review merit
listing.  Returns the (unchanged) state and the listed rows. -/
def approve_documents_get (db : DB) : DB × List Application :=
  (db, (db.applications.filter (fun a => a.document_status == "Pending")).mergeSort meritLE)

/-- The row set of the `/merit-list/<dept>` join before ordering: one
row per pair of an application in `dept` and one of its `"Allocated"`
allocations. -/
def allocatedRows (db : DB) (dept : String) : List Application :=
  (db.applications.filter (fun a => a.department == dept)).flatMap (fun a =>
    (db.allocations.filter (fun al =>
      al.application_id == a.application_id && al.allocation_status == "Allocated")).map
      (fun _ => a))

/-- The `/merit-list/<dept>` route: allocated students of one
department ordered by merit.  Returns the (unchanged) state and the
listed rows. -/
def department_merit (db : DB) (dept : String) : DB × List Application :=
  (db, (allocatedRows db dept).mergeSort meritLE)

/-- Database states reachable from the empty database through the
engine's state-changing requests.  Failing requests commit nothing, and
the listing routes write nothing, so neither changes the state. -/
inductive Reachable : DB → Prop where
  | init : Reachable DB.init
  | visit_home {db} : Reachable db → Reachable (home db)
  | submit {db db' sid form} : Reachable db →
      application_form db sid form = .ok db' → Reachable db'
  | review {db db' sid status mailOk msgs} : Reachable db →
      approve_documents db sid status mailOk = .ok (db', msgs) → Reachable db'

/-- Number of `"Allocated"` allocation rows referencing a department. -/
def allocCount (allocs : List Allocation) (deptId : Nat) : Nat :=
  (allocs.filter (fun al =>
    al.department_id == deptId && al.allocation_status == "Allocated")).length

/-- Number of application rows owned by one student. -/
def studentApplicationCount (db : DB) (sid : Nat) : Nat :=
  (db.applications.filter (fun a => a.student_id == sid)).length

/-- Capacity-ledger invariant: department ids are distinct, allocations
exist only once departments do, and each department's `filled_seats` is
bounded by `total_seats` and equal to its `"Allocated"` row count. -/
def DeptInv (db : DB) : Prop :=
  (db.departments.map Department.department_id).Nodup ∧
  (db.departments = [] → db.allocations = []) ∧
  ∀ d ∈ db.departments, d.filled_seats ≤ d.total_seats ∧
    d.filled_seats = (allocCount db.allocations d.department_id : Int)

/-! ## Concrete states used as witnesses and counterexamples -/

/-- The three departments created by the first visit to `/home`. -/
def bootDepartments : List Department :=
  [ { department_id := 1, department_name := "CS", total_seats := 300, filled_seats := 0 },
    { department_id := 2, department_name := "Mechanical", total_seats := 100, filled_seats := 0 },
    { department_id := 3, department_name := "Civil", total_seats := 100, filled_seats := 0 } ]

/-- State after the first visit to `/home` on the empty database. -/
def dbBoot : DB :=
  { applications := [], allocations := [], departments := bootDepartments
    nextApplicationId := 1, nextAllocationId := 1, nextDepartmentId := 4 }

/-- A sample application form for student 1 declaring department CS. -/
def formA : ApplicationForm :=
  { name := "A", age := 20, gender := "F", email := "a@u", department := "CS"
    entrance_score := 80, percentage_10 := 60, percentage_12 := 70, documents := [] }

/-- Student 1's pending application as stored by `application_form`. -/
def pendingA : Application := mkApplication 1 1 formA

/-- State after student 1 submits `formA` in `dbBoot`. -/
def dbSubmitted : DB :=
  { applications := [pendingA], allocations := [], departments := bootDepartments
    nextApplicationId := 2, nextAllocationId := 1, nextDepartmentId := 4 }

/-- State after the admin approves student 1's documents in
`dbSubmitted`: the application is `"Approved"`, one `"Allocated"`
allocation exists, and CS has one filled seat. -/
def dbApproved : DB :=
  { applications := [{ pendingA with document_status := "Approved" }]
    allocations := [ { allocation_id := 1, application_id := 1, department_id := 1
                       allocation_status := "Allocated" } ]
    departments :=
      [ { department_id := 1, department_name := "CS", total_seats := 300, filled_seats := 1 },
        { department_id := 2, department_name := "Mechanical", total_seats := 100, filled_seats := 0 },
        { department_id := 3, department_name := "Civil", total_seats := 100, filled_seats := 0 } ]
    nextApplicationId := 2, nextAllocationId := 2, nextDepartmentId := 4 }

/-- State after the admin re-reviews student 1 with `"Rejected"` in
`dbApproved`: the application is `"Rejected"` while its `"Allocated"`
allocation row persists. -/
def dbRejectedKeepsAllocation : DB :=
  { applications := [{ pendingA with document_status := "Rejected" }]
    allocations := [ { allocation_id := 1, application_id := 1, department_id := 1
                       allocation_status := "Allocated" } ]
    departments :=
      [ { department_id := 1, department_name := "CS", total_seats := 300, filled_seats := 1 },
        { department_id := 2, department_name := "Mechanical", total_seats := 100, filled_seats := 0 },
        { department_id := 3, department_name := "Civil", total_seats := 100, filled_seats := 0 } ]
    nextApplicationId := 2, nextAllocationId := 2, nextDepartmentId := 4 }

/-- Applicant A of the two-applicant scenario (student 1, department
CS), with symbolic merit attributes. -/
def appATwo (mA p12A p10A aA : Int) : Application :=
  { application_id := 1, student_id := 1, student_name := "A", student_gender := "F"
    student_email := "a@u", student_age := aA, department := "CS", entrance_marks := mA
    percentage_10th := p10A, percentage_12th := p12A, document_status := "Pending"
    documents := [] }

/-- Applicant B of the two-applicant scenario (student 2, department
CS), with symbolic merit attributes. -/
def appBTwo (mB p12B p10B aB : Int) : Application :=
  { application_id := 2, student_id := 2, student_name := "B", student_gender := "F"
    student_email := "b@u", student_age := aB, department := "CS", entrance_marks := mB
    percentage_10th := p10B, percentage_12th := p12B, document_status := "Pending"
    documents := [] }

/-- Two pending applicants for department CS with `total_seats = 1`,
`filled_seats = 0`. -/
def dbTwo (mA p12A p10A aA mB p12B p10B aB : Int) : DB :=
  { applications := [appATwo mA p12A p10A aA, appBTwo mB p12B p10B aB]
    allocations := []
    departments := [ { department_id := 1, department_name := "CS"
                       total_seats := 1, filled_seats := 0 } ]
    nextApplicationId := 3, nextAllocationId := 1, nextDepartmentId := 2 }

/-- State `dbTwo` after approving applicant A: A holds the only seat. -/
def dbTwoAfterA (mA p12A p10A aA mB p12B p10B aB : Int) : DB :=
  { applications := [{ appATwo mA p12A p10A aA with document_status := "Approved" },
                     appBTwo mB p12B p10B aB]
    allocations := [ { allocation_id := 1, application_id := 1, department_id := 1
                       allocation_status := "Allocated" } ]
    departments := [ { department_id := 1, department_name := "CS"
                       total_seats := 1, filled_seats := 1 } ]
    nextApplicationId := 3, nextAllocationId := 2, nextDepartmentId := 2 }

/-- State `dbTwoAfterA` after approving applicant B: B is `"Not Allocated"`
whatever B's merit attributes are. -/
def dbTwoAfterB (mA p12A p10A aA mB p12B p10B aB : Int) : DB :=
  { applications := [{ appATwo mA p12A p10A aA with document_status := "Approved" },
                     { appBTwo mB p12B p10B aB with document_status := "Approved" }]
    allocations := [ { allocation_id := 1, application_id := 1, department_id := 1
                       allocation_status := "Allocated" },
                     { allocation_id := 2, application_id := 2, department_id := 1
                       allocation_status := "Not Allocated" } ]
    departments := [ { department_id := 1, department_name := "CS"
                       total_seats := 1, filled_seats := 1 } ]
    nextApplicationId := 3, nextAllocationId := 3, nextDepartmentId := 2 }

/-- Merit-example record with key `(80, 70, 60, 20)`. -/
def meritRecA : Application :=
  { application_id := 1, student_id := 1, student_name := "P", student_gender := "F"
    student_email := "p@u", student_age := 20, department := "CS", entrance_marks := 80
    percentage_10th := 60, percentage_12th := 70, document_status := "Pending"
    documents := [] }

/-- Merit-example record with key `(80, 75, 60, 19)`. -/
def meritRecB : Application :=
  { application_id := 2, student_id := 2, student_name := "Q", student_gender := "F"
    student_email := "q@u", student_age := 19, department := "CS", entrance_marks := 80
    percentage_10th := 60, percentage_12th := 75, document_status := "Pending"
    documents := [] }

/-- Database holding the two merit-example records, in the order
`[meritRecA, meritRecB]`. -/
def dbMeritExample : DB :=
  { applications := [meritRecA, meritRecB], allocations := []
    departments := bootDepartments
    nextApplicationId := 3, nextAllocationId := 1, nextDepartmentId := 4 }

/-- An application declaring the department `"Physics"`, which none of
the bootstrapped departments matches. -/
def pendingPhysics : Application :=
  { application_id := 1, student_id := 1, student_name := "A", student_gender := "F"
    student_email := "a@u", student_age := 20, department := "Physics"
    entrance_marks := 80, percentage_10th := 60, percentage_12th := 70
    document_status := "Pending", documents := [] }

/-- State whose only application declares an unknown department. -/
def dbUnknownDept : DB :=
  { applications := [pendingPhysics], allocations := [], departments := bootDepartments
    nextApplicationId := 2, nextAllocationId := 1, nextDepartmentId := 4 }

/-! ## Step equations for the concrete states, and their reachability -/

theorem home_init_eq : home DB.init = dbBoot := rfl

theorem step_submit : application_form dbBoot 1 formA = .ok dbSubmitted := rfl

theorem step_approve :
    approve_documents dbSubmitted 1 "Approved" (fun _ => false) = .ok (dbApproved, []) := rfl

theorem step_reject :
    approve_documents dbApproved 1 "Rejected" (fun _ => false) =
      .ok (dbRejectedKeepsAllocation, []) := rfl

theorem reachable_dbBoot : Reachable dbBoot :=
  home_init_eq ▸ Reachable.visit_home Reachable.init

theorem reachable_dbSubmitted : Reachable dbSubmitted :=
  Reachable.submit reachable_dbBoot step_submit

theorem reachable_dbApproved : Reachable dbApproved :=
  Reachable.review reachable_dbSubmitted step_approve

theorem reachable_dbRejectedKeepsAllocation : Reachable dbRejectedKeepsAllocation :=
  Reachable.review reachable_dbApproved step_reject

/-! ## Inversion of a successful review -/

/-- Case analysis of a successful `approve_documents` request: the
application was found, and the successor state is the status update
alone (non-`"Approved"` decisions), or additionally carries one new
allocation row — `"Allocated"` with a seat commit when capacity was
free, `"Not Allocated"` otherwise. -/
theorem approve_documents_ok_cases {db : DB} {sid : Nat} {status : String}
    {mailOk : Nat → Bool} {db' : DB} {msgs : List Message}
    (h : approve_documents db sid status mailOk = .ok (db', msgs)) :
    ∃ app, findApplicationByStudent db sid = some app ∧
      ((status ≠ "Approved" ∧
          db' = { db with
            applications := setDocumentStatus db.applications app.application_id status }) ∨
       (status = "Approved" ∧
          ∃ dept, findDepartmentByName db app.department = some dept ∧
            ((dept.filled_seats < dept.total_seats ∧
                db' = { db with
                  applications := setDocumentStatus db.applications app.application_id status
                  allocations := db.allocations ++
                    [ { allocation_id := db.nextAllocationId
                        application_id := app.application_id
                        department_id := dept.department_id
                        allocation_status := "Allocated" } ]
                  nextAllocationId := db.nextAllocationId + 1
                  departments := commitSeat db.departments dept.department_id }) ∨
             (¬ dept.filled_seats < dept.total_seats ∧
                db' = { db with
                  applications := setDocumentStatus db.applications app.application_id status
                  allocations := db.allocations ++
                    [ { allocation_id := db.nextAllocationId
                        application_id := app.application_id
                        department_id := dept.department_id
                        allocation_status := "Not Allocated" } ]
                  nextAllocationId := db.nextAllocationId + 1 })))) := by
  unfold approve_documents at h
  split at h
  · exact absurd h (by simp)
  case _ app heq =>
    refine ⟨app, heq, ?_⟩
    by_cases hrej : status = "Rejected"
    · rw [if_pos hrej] at h
      simp only [Except.ok.injEq, Prod.mk.injEq] at h
      exact Or.inl ⟨by rw [hrej]; decide, h.1.symm⟩
    · rw [if_neg hrej] at h
      by_cases happ : status = "Approved"
      · rw [if_pos happ] at h
        refine Or.inr ⟨happ, ?_⟩
        split at h
        · exact absurd h (by simp)
        case _ dept hdept =>
          refine ⟨dept, hdept, ?_⟩
          by_cases hcap : dept.filled_seats < dept.total_seats
          · rw [if_pos hcap] at h
            simp only [Except.ok.injEq, Prod.mk.injEq] at h
            exact Or.inl ⟨hcap, h.1.symm⟩
          · rw [if_neg hcap] at h
            simp only [Except.ok.injEq, Prod.mk.injEq] at h
            exact Or.inr ⟨hcap, h.1.symm⟩
      · rw [if_neg happ] at h
        simp only [Except.ok.injEq, Prod.mk.injEq] at h
        exact Or.inl ⟨happ, h.1.symm⟩

/-! ## Evaluation lemmas for `approve_documents` -/

theorem approve_documents_rejected_eq (db : DB) (sid : Nat) (mailOk : Nat → Bool)
    (app : Application) (happ : findApplicationByStudent db sid = some app) :
    approve_documents db sid "Rejected" mailOk =
      .ok ({ db with
          applications := setDocumentStatus db.applications app.application_id "Rejected" },
        trySend (mailOk 0) (rejectionMessage app)) := by
  unfold approve_documents
  rw [happ]
  rfl

theorem approve_documents_approved_seat_eq (db : DB) (sid : Nat) (mailOk : Nat → Bool)
    (app : Application) (dept : Department)
    (happ : findApplicationByStudent db sid = some app)
    (hdept : findDepartmentByName db app.department = some dept)
    (hcap : dept.filled_seats < dept.total_seats) :
    approve_documents db sid "Approved" mailOk =
      .ok ({ db with
          applications := setDocumentStatus db.applications app.application_id "Approved"
          allocations := db.allocations ++
            [ { allocation_id := db.nextAllocationId
                application_id := app.application_id
                department_id := dept.department_id
                allocation_status := "Allocated" } ]
          nextAllocationId := db.nextAllocationId + 1
          departments := commitSeat db.departments dept.department_id },
        trySend (mailOk 0) (approvalMessage app) ++ trySend (mailOk 1) (offerMessage app)) := by
  unfold approve_documents
  rw [happ]
  simp [hdept, hcap]

theorem approve_documents_approved_full_eq (db : DB) (sid : Nat) (mailOk : Nat → Bool)
    (app : Application) (dept : Department)
    (happ : findApplicationByStudent db sid = some app)
    (hdept : findDepartmentByName db app.department = some dept)
    (hcap : ¬ dept.filled_seats < dept.total_seats) :
    approve_documents db sid "Approved" mailOk =
      .ok ({ db with
          applications := setDocumentStatus db.applications app.application_id "Approved"
          allocations := db.allocations ++
            [ { allocation_id := db.nextAllocationId
                application_id := app.application_id
                department_id := dept.department_id
                allocation_status := "Not Allocated" } ]
          nextAllocationId := db.nextAllocationId + 1 },
        trySend (mailOk 0) (approvalMessage app)) := by
  unfold approve_documents
  rw [happ]
  simp [hdept, hcap]

/-! ## Claims -/

/-- C10 —: department bootstrap is lazy: visiting `/home` with no
department rows creates exactly CS (300 seats), Mechanical (100) and
Civil (100), each with zero filled seats; visiting with at least one
department row creates none; hence repeated visits never duplicate
departments. -/
theorem c10_home_bootstrap (db : DB) :
    (db.departments = [] →
      home db = { db with
        departments :=
          [ { department_id := db.nextDepartmentId, department_name := "CS"
              total_seats := 300, filled_seats := 0 },
            { department_id := db.nextDepartmentId + 1, department_name := "Mechanical"
              total_seats := 100, filled_seats := 0 },
            { department_id := db.nextDepartmentId + 2, department_name := "Civil"
              total_seats := 100, filled_seats := 0 } ]
        nextDepartmentId := db.nextDepartmentId + 3 }) ∧
    (db.departments ≠ [] → home db = db) ∧
    home (home db) = home db := by
  refine ⟨?_, ?_, ?_⟩
  · intro h
    unfold home
    rw [if_pos (by simp [h])]
  · intro h
    unfold home
    rw [if_neg (by simpa using h)]
  · by_cases h : db.departments = []
    · have h1 : home db = { db with
          departments :=
            [ { department_id := db.nextDepartmentId, department_name := "CS"
                total_seats := 300, filled_seats := 0 },
              { department_id := db.nextDepartmentId + 1, department_name := "Mechanical"
                total_seats := 100, filled_seats := 0 },
              { department_id := db.nextDepartmentId + 2, department_name := "Civil"
                total_seats := 100, filled_seats := 0 } ]
          nextDepartmentId := db.nextDepartmentId + 3 } := by
        unfold home
        rw [if_pos (by simp [h])]
      rw [h1]
      unfold home
      rw [if_neg (by simp)]
    · have h1 : home db = db := by
        unfold home
        rw [if_neg (by simpa using h)]
      rw [h1, h1]

/-- C9 —: notification delivery never affects the review outcome: for
every application, decision and pair of delivery oracles, the database
component of the result is identical — delivery failures are swallowed
and the transition is never rolled back. -/
theorem c9_notifications_never_affect_state (db : DB) (sid : Nat) (status : String)
    (o1 o2 : Nat → Bool) :
    (approve_documents db sid status o1).map Prod.fst =
      (approve_documents db sid status o2).map Prod.fst := by
  unfold approve_documents
  cases hfind : findApplicationByStudent db sid with
  | none => rfl
  | some app =>
      by_cases hrej : status = "Rejected"
      · simp [hrej, Except.map]
      · by_cases happ : status = "Approved"
        · cases hdept : findDepartmentByName db app.department with
          | none => simp [hrej, happ, hdept]
          | some dept =>
              by_cases hcap : dept.filled_seats < dept.total_seats <;>
                simp [hrej, happ, hdept, hcap, Except.map]
        · simp [hrej, happ, Except.map]

/-- C8 —: a `"Rejected"` review never creates an allocation: it sets
the application's `document_status` to `"Rejected"` and leaves the
allocation rows and every department row (hence every `filled_seats`)
unchanged. -/
theorem c8_rejected_creates_no_allocation (db : DB) (sid : Nat) (mailOk : Nat → Bool)
    (app : Application) (happ : findApplicationByStudent db sid = some app) :
    ∃ db' msgs, approve_documents db sid "Rejected" mailOk = .ok (db', msgs) ∧
      db'.allocations = db.allocations ∧
      db'.departments = db.departments ∧
      db'.applications = setDocumentStatus db.applications app.application_id "Rejected" ∧
      ∀ a ∈ db'.applications, a.application_id = app.application_id →
        a.document_status = "Rejected" := by
  refine ⟨_, _, approve_documents_rejected_eq db sid mailOk app happ, rfl, rfl, rfl, ?_⟩
  intro a ha hid
  unfold setDocumentStatus at ha
  obtain ⟨b, hb, rfl⟩ := List.mem_map.mp ha
  by_cases hba : b.application_id = app.application_id
  · simp [hba]
  · rw [if_neg hba] at hid
    exact absurd hid hba

/-- C8 witness —: rejecting student 1's pending application in
`dbSubmitted` leaves allocations and departments untouched. -/
theorem c8_rejected_creates_no_allocation_witness :
    ∃ db' msgs, approve_documents dbSubmitted 1 "Rejected" (fun _ => true) = .ok (db', msgs) ∧
      db'.allocations = dbSubmitted.allocations ∧
      db'.departments = dbSubmitted.departments ∧
      db'.applications = setDocumentStatus dbSubmitted.applications pendingA.application_id "Rejected" ∧
      ∀ a ∈ db'.applications, a.application_id = pendingA.application_id →
        a.document_status = "Rejected" :=
  c8_rejected_creates_no_allocation dbSubmitted 1 (fun _ => true) pendingA (by decide)

/-- C6 —: reviewing a nonexistent application fails with `NotFound`
(for any decision), and an `"Approved"` review of an application whose
declared department matches no department row fails with
`UnknownDepartment`; both failures abort the request before commit, so
the error carries no successor state — the database is unchanged. -/
theorem c6_review_failure_semantics (db : DB) (sid : Nat) (status : String)
    (mailOk : Nat → Bool) :
    (findApplicationByStudent db sid = none →
      approve_documents db sid status mailOk = .error .NotFound) ∧
    (∀ app, findApplicationByStudent db sid = some app →
      findDepartmentByName db app.department = none →
      approve_documents db sid "Approved" mailOk = .error .UnknownDepartment) := by
  constructor
  · intro h
    unfold approve_documents
    rw [h]
  · intro app happ hdept
    unfold approve_documents
    rw [happ]
    simp [hdept]

/-- C6 witness —: reviewing absent student 7 in `dbBoot` signals
`NotFound`; approving student 1 in `dbUnknownDept`, whose application
declares the unknown department `"Physics"`, signals
`UnknownDepartment`. -/
theorem c6_review_failure_semantics_witness :
    approve_documents dbBoot 7 "Approved" (fun _ => true) = .error .NotFound ∧
    approve_documents dbUnknownDept 1 "Approved" (fun _ => true) = .error .UnknownDepartment :=
  ⟨(c6_review_failure_semantics dbBoot 7 "Approved" (fun _ => true)).1 (by decide),
   (c6_review_failure_semantics dbUnknownDept 1 "Approved" (fun _ => true)).2
     pendingPhysics (by decide) (by decide)⟩

/-- C4 —: re-invoking review on an application already in a terminal
state is permitted: for an application whose `document_status` is
already `"Approved"` or `"Rejected"`, an `"Approved"` review succeeds
(given its department exists) and appends one more allocation row for
that same application, so an application can own several allocations. -/
theorem c4_rereview_second_allocation (db : DB) (sid : Nat) (mailOk : Nat → Bool)
    (app : Application) (dept : Department)
    (happ : findApplicationByStudent db sid = some app)
    (_hterm : app.document_status = "Approved" ∨ app.document_status = "Rejected")
    (hdept : findDepartmentByName db app.department = some dept) :
    ∃ db' msgs, approve_documents db sid "Approved" mailOk = .ok (db', msgs) ∧
      db'.allocations.length = db.allocations.length + 1 ∧
      (db'.allocations.filter (fun al => al.application_id == app.application_id)).length =
        (db.allocations.filter (fun al => al.application_id == app.application_id)).length
          + 1 := by
  by_cases hcap : dept.filled_seats < dept.total_seats
  · refine ⟨_, _, approve_documents_approved_seat_eq db sid mailOk app dept happ hdept hcap,
      ?_, ?_⟩
    · simp
    · simp [List.filter_append, List.filter]
  · refine ⟨_, _, approve_documents_approved_full_eq db sid mailOk app dept happ hdept hcap,
      ?_, ?_⟩
    · simp
    · simp [List.filter_append, List.filter]

/-- C4 witness —: re-approving student 1 in `dbApproved`, whose
application is already `"Approved"` and already owns an allocation,
adds a second allocation row for it. -/
theorem c4_rereview_second_allocation_witness :
    ∃ db' msgs, approve_documents dbApproved 1 "Approved" (fun _ => true) = .ok (db', msgs) ∧
      db'.allocations.length = dbApproved.allocations.length + 1 ∧
      (db'.allocations.filter (fun al =>
          al.application_id == ({ pendingA with document_status := "Approved" } : Application).application_id)).length =
        (dbApproved.allocations.filter (fun al =>
          al.application_id == ({ pendingA with document_status := "Approved" } : Application).application_id)).length
          + 1 :=
  c4_rereview_second_allocation dbApproved 1 (fun _ => true)
    { pendingA with document_status := "Approved" }
    { department_id := 1, department_name := "CS", total_seats := 300, filled_seats := 1 }
    (by decide) (Or.inl (by decide)) (by decide)

/-- C10 witness —: the first `/home` visit on the empty database
yields `dbBoot`; a second visit changes nothing. -/
theorem c10_home_bootstrap_witness :
    home DB.init = dbBoot ∧ home dbBoot = dbBoot :=
  ⟨(c10_home_bootstrap DB.init).1 rfl,
   (c10_home_bootstrap dbBoot).2.1 (by decide)⟩

/-- C2 —: allocation is first-approved-first-served: with department
CS holding one free seat, approving applicant A (student 1) first
yields an `"Allocated"` row for A's application, and approving
applicant B (student 2) afterwards yields a `"Not Allocated"` row for
B's application — whatever the two merit keys are and however
notification delivery behaves. -/
theorem c2_first_approved_first_served (mA p12A p10A aA mB p12B p10B aB : Int)
    (o1 o2 : Nat → Bool) :
    (approve_documents (dbTwo mA p12A p10A aA mB p12B p10B aB) 1 "Approved" o1).map
        Prod.fst = .ok (dbTwoAfterA mA p12A p10A aA mB p12B p10B aB) ∧
    (approve_documents (dbTwoAfterA mA p12A p10A aA mB p12B p10B aB) 2 "Approved" o2).map
        Prod.fst = .ok (dbTwoAfterB mA p12A p10A aA mB p12B p10B aB) ∧
    (dbTwoAfterA mA p12A p10A aA mB p12B p10B aB).allocations =
      [ { allocation_id := 1, application_id := 1, department_id := 1
          allocation_status := "Allocated" } ] ∧
    (dbTwoAfterB mA p12A p10A aA mB p12B p10B aB).allocations =
      [ { allocation_id := 1, application_id := 1, department_id := 1
          allocation_status := "Allocated" },
        { allocation_id := 2, application_id := 2, department_id := 1
          allocation_status := "Not Allocated" } ] :=
  ⟨rfl, rfl, rfl, rfl⟩

/-- The comparator is transitive. -/
theorem meritLE_trans (a b c : Application) (hab : meritLE a b = true)
    (hbc : meritLE b c = true) : meritLE a c = true := by
  simp only [meritLE, decide_eq_true_eq, MeritBefore] at *
  omega

/-- The comparator is total. -/
theorem meritLE_total (a b : Application) : (meritLE a b || meritLE b a) = true := by
  simp only [meritLE, Bool.or_eq_true, decide_eq_true_eq, MeritBefore]
  omega

/-- C5 —: both merit listings return the state unchanged (no side
effects), list exactly the rows of their underlying query (pending
applications, resp. the department's `"Allocated"` join rows), and
order them by the composite key `(entrance_marks, percentage_12th,
percentage_10th, student_age)`, each descending, as a strict
lexicographic tie-break chain; on the two example records with keys
`(80, 70, 60, 20)` and `(80, 75, 60, 19)` the second is listed first. -/
theorem c5_merit_listings :
    (∀ db, (approve_documents_get db).1 = db ∧
      ((approve_documents_get db).2).Perm
        (db.applications.filter (fun a => a.document_status == "Pending")) ∧
      List.Pairwise MeritBefore (approve_documents_get db).2) ∧
    (∀ db dept, (department_merit db dept).1 = db ∧
      ((department_merit db dept).2).Perm (allocatedRows db dept) ∧
      List.Pairwise MeritBefore (department_merit db dept).2) ∧
    (approve_documents_get dbMeritExample).2 = [meritRecB, meritRecA] := by
  refine ⟨fun db => ⟨rfl, List.mergeSort_perm _ _, ?_⟩,
    fun db dept => ⟨rfl, List.mergeSort_perm _ _, ?_⟩,
    by simp [approve_documents_get, dbMeritExample, List.mergeSort, meritRecA, meritRecB,
      meritLE, MeritBefore, List.filter]⟩
  · exact (List.sorted_mergeSort meritLE_trans meritLE_total _).imp
      (fun h => of_decide_eq_true h)
  · exact (List.sorted_mergeSort meritLE_trans meritLE_total _).imp
      (fun h => of_decide_eq_true h)

/-! ## Helper lemmas for the inductive invariants -/

theorem application_form_ok_inv {db db' : DB} {sid : Nat} {form : ApplicationForm}
    (h : application_form db sid form = .ok db') :
    findApplicationByStudent db sid = none ∧
    db' = { db with
      applications := db.applications ++ [mkApplication db.nextApplicationId sid form]
      nextApplicationId := db.nextApplicationId + 1 } := by
  unfold application_form at h
  split at h
  · exact absurd h (by simp)
  case _ heq =>
    simp only [Except.ok.injEq] at h
    exact ⟨heq, h.symm⟩

theorem home_applications (db : DB) : (home db).applications = db.applications := by
  unfold home
  split <;> rfl

theorem home_preserves_nonempty_state (db : DB) (h : db.departments ≠ []) : home db = db := by
  unfold home
  rw [if_neg (by simpa using h)]

theorem allocCount_append_allocated (l : List Allocation) (al : Allocation) (j : Nat)
    (hd : al.department_id = j) (hs : al.allocation_status = "Allocated") :
    allocCount (l ++ [al]) j = allocCount l j + 1 := by
  unfold allocCount
  rw [List.filter_append, List.length_append]
  simp [List.filter, hd, hs]

theorem allocCount_append_skip (l : List Allocation) (al : Allocation) (j : Nat)
    (h : ¬ (al.department_id = j ∧ al.allocation_status = "Allocated")) :
    allocCount (l ++ [al]) j = allocCount l j := by
  unfold allocCount
  rw [List.filter_append, List.length_append]
  have hb : (al.department_id == j && al.allocation_status == "Allocated") = false := by
    by_cases h1 : al.department_id = j
    · by_cases h2 : al.allocation_status = "Allocated"
      · exact absurd ⟨h1, h2⟩ h
      · simp [h2]
    · simp [h1]
  simp [List.filter, hb]

theorem commitSeat_map_id (l : List Department) (i : Nat) :
    (commitSeat l i).map Department.department_id = l.map Department.department_id := by
  unfold commitSeat
  rw [List.map_map]
  apply List.map_congr_left
  intro d _
  by_cases hdi : d.department_id = i <;> simp [hdi]

theorem setDocumentStatus_student_filter (apps : List Application) (appId : Nat)
    (status : String) (sid : Nat) :
    ((setDocumentStatus apps appId status).filter (fun a => a.student_id == sid)).length =
      (apps.filter (fun a => a.student_id == sid)).length := by
  unfold setDocumentStatus
  rw [List.filter_map, List.length_map]
  congr 1
  apply List.filter_congr
  intro a _
  by_cases h : a.application_id = appId <;> simp [Function.comp, h]

theorem one_app_step_submit {db db' : DB} {sid : Nat} {form : ApplicationForm}
    (h : application_form db sid form = .ok db')
    (ih : ∀ s, studentApplicationCount db s ≤ 1) :
    ∀ s, studentApplicationCount db' s ≤ 1 := by
  obtain ⟨hnone, rfl⟩ := application_form_ok_inv h
  intro s
  unfold studentApplicationCount at *
  rw [List.filter_append, List.length_append]
  by_cases hs : sid = s
  · have hempty : db.applications.filter (fun a => a.student_id == s) = [] := by
      rw [List.filter_eq_nil_iff]
      intro a ha
      have := List.find?_eq_none.mp hnone a ha
      simpa [hs] using this
    rw [hempty]
    simp [List.filter, mkApplication, hs]
  · have hbe : (sid == s) = false := by simpa using hs
    have hnew : ([mkApplication db.nextApplicationId sid form].filter
        (fun a => a.student_id == s)).length = 0 := by
      simp [List.filter, mkApplication, hbe]
    rw [hnew]
    simpa using ih s

theorem one_app_step_review {db db' : DB} {sid : Nat} {status : String}
    {mailOk : Nat → Bool} {msgs : List Message}
    (h : approve_documents db sid status mailOk = .ok (db', msgs))
    (ih : ∀ s, studentApplicationCount db s ≤ 1) :
    ∀ s, studentApplicationCount db' s ≤ 1 := by
  obtain ⟨app, happ, hcase⟩ := approve_documents_ok_cases h
  intro s
  rcases hcase with ⟨-, rfl⟩ | ⟨-, dept, hdept, ⟨hcap, rfl⟩ | ⟨hcap, rfl⟩⟩ <;>
    · unfold studentApplicationCount
      rw [setDocumentStatus_student_filter]
      exact ih s

theorem reachable_one_application (db : DB) (h : Reachable db) :
    ∀ sid, studentApplicationCount db sid ≤ 1 := by
  induction h with
  | init => intro sid; simp [studentApplicationCount, DB.init]
  | visit_home hr ih =>
      intro sid
      unfold studentApplicationCount
      rw [home_applications]
      exact ih sid
  | submit hr heq ih => exact one_app_step_submit heq ih
  | review hr heq ih => exact one_app_step_review heq ih

/-- C7 —: at most one application row exists per student in every
reachable state; a submission by a student who already owns one fails
with `DuplicateApplication` and inserts nothing, while a submission by
a student with none inserts exactly one new application with
`document_status = "Pending"` and that student's id. -/
theorem c7_one_application_per_student (db : DB) (h : Reachable db) :
    (∀ sid, studentApplicationCount db sid ≤ 1) ∧
    (∀ sid form app, findApplicationByStudent db sid = some app →
      application_form db sid form = .error .DuplicateApplication) ∧
    (∀ sid form, findApplicationByStudent db sid = none →
      application_form db sid form = .ok { db with
        applications := db.applications ++ [mkApplication db.nextApplicationId sid form]
        nextApplicationId := db.nextApplicationId + 1 } ∧
      (mkApplication db.nextApplicationId sid form).document_status = "Pending" ∧
      (mkApplication db.nextApplicationId sid form).student_id = sid) := by
  refine ⟨reachable_one_application db h, ?_, ?_⟩
  · intro sid form app happ
    unfold application_form
    rw [happ]
  · intro sid form hnone
    refine ⟨?_, rfl, rfl⟩
    unfold application_form
    rw [hnone]

/-- C7 witness —: in `dbSubmitted` student 1 owns an application, so
re-submitting fails with `DuplicateApplication`; in `dbBoot` student 1
owns none, so submitting inserts exactly one `"Pending"` application. -/
theorem c7_one_application_per_student_witness :
    application_form dbSubmitted 1 formA = .error .DuplicateApplication ∧
    (application_form dbBoot 1 formA = .ok { dbBoot with
        applications := dbBoot.applications ++ [mkApplication dbBoot.nextApplicationId 1 formA]
        nextApplicationId := dbBoot.nextApplicationId + 1 } ∧
      (mkApplication dbBoot.nextApplicationId 1 formA).document_status = "Pending" ∧
      (mkApplication dbBoot.nextApplicationId 1 formA).student_id = 1) :=
  ⟨(c7_one_application_per_student dbSubmitted reachable_dbSubmitted).2.1 1 formA
      pendingA (by decide),
   (c7_one_application_per_student dbBoot reachable_dbBoot).2.2 1 formA (by decide)⟩

theorem deptInv_init : DeptInv DB.init := by
  refine ⟨by simp [DB.init], fun _ => rfl, ?_⟩
  intro d hd
  simp [DB.init] at hd

theorem deptInv_home (db : DB) (h : DeptInv db) : DeptInv (home db) := by
  obtain ⟨hnodup, hboot, hinv⟩ := h
  unfold home
  split
  case isTrue hempty =>
    have hdep : db.departments = [] := by simpa [List.isEmpty_iff] using hempty
    have hallocs : db.allocations = [] := hboot hdep
    refine ⟨by simp, by simp, ?_⟩
    intro d hd
    have : d.filled_seats = 0 ∧ d.total_seats = 300 ∨
        d.filled_seats = 0 ∧ d.total_seats = 100 := by
      simp at hd
      rcases hd with rfl | rfl | rfl
      · exact Or.inl ⟨rfl, rfl⟩
      · exact Or.inr ⟨rfl, rfl⟩
      · exact Or.inr ⟨rfl, rfl⟩
    constructor
    · rcases this with ⟨h0, ht⟩ | ⟨h0, ht⟩ <;> rw [h0, ht] <;> decide
    · rcases this with ⟨h0, -⟩ | ⟨h0, -⟩ <;> rw [h0] <;> simp [hallocs, allocCount]
  case isFalse => exact ⟨hnodup, hboot, hinv⟩

theorem deptInv_submit {db db' : DB} {sid : Nat} {form : ApplicationForm}
    (h : application_form db sid form = .ok db') (hI : DeptInv db) : DeptInv db' := by
  obtain ⟨-, rfl⟩ := application_form_ok_inv h
  exact hI

theorem deptInv_review {db db' : DB} {sid : Nat} {status : String}
    {mailOk : Nat → Bool} {msgs : List Message}
    (h : approve_documents db sid status mailOk = .ok (db', msgs)) (hI : DeptInv db) :
    DeptInv db' := by
  obtain ⟨hnodup, hboot, hinv⟩ := hI
  obtain ⟨app, happ, hcase⟩ := approve_documents_ok_cases h
  rcases hcase with ⟨-, rfl⟩ | ⟨-, dept, hdept, ⟨hcap, rfl⟩ | ⟨hcap, rfl⟩⟩
  · exact ⟨hnodup, hboot, hinv⟩
  · have hdmem : dept ∈ db.departments := List.mem_of_find?_eq_some hdept
    refine ⟨?_, ?_, ?_⟩
    · show ((commitSeat db.departments dept.department_id).map
        Department.department_id).Nodup
      rw [commitSeat_map_id]
      exact hnodup
    · intro hempty
      exact absurd (List.map_eq_nil_iff.mp hempty) (List.ne_nil_of_mem hdmem)
    · intro d' hd'
      obtain ⟨d, hd, rfl⟩ := List.mem_map.mp hd'
      by_cases hdi : d.department_id = dept.department_id
      · have hde : d = dept := List.inj_on_of_nodup_map hnodup hd hdmem hdi
        rw [if_pos hdi]
        dsimp only
        constructor
        · have := hcap
          rw [← hde] at this
          omega
        · rw [allocCount_append_allocated _ _ _ hdi.symm rfl]
          have hcount := (hinv d hd).2
          push_cast
          omega
      · rw [if_neg hdi]
        refine ⟨(hinv d hd).1, ?_⟩
        rw [allocCount_append_skip _ _ _ (fun hc => hdi hc.1.symm)]
        exact (hinv d hd).2
  · have hdmem : dept ∈ db.departments := List.mem_of_find?_eq_some hdept
    refine ⟨hnodup, ?_, ?_⟩
    · intro hempty
      exact absurd hempty (List.ne_nil_of_mem hdmem)
    · intro d hd
      refine ⟨(hinv d hd).1, ?_⟩
      rw [allocCount_append_skip _ _ _ (fun hc => by
        have := hc.2
        simp at this)]
      exact (hinv d hd).2

theorem deptInv_reachable (db : DB) (h : Reachable db) : DeptInv db := by
  induction h with
  | init => exact deptInv_init
  | visit_home hr ih => exact deptInv_home _ ih
  | submit hr heq ih => exact deptInv_submit heq ih
  | review hr heq ih => exact deptInv_review heq ih

/-- C1 —: in every reachable state every department satisfies
`filled_seats ≤ total_seats` and `filled_seats` equals the number of
`"Allocated"` allocation rows referencing it; moreover any successful
review changes a department's `filled_seats` either not at all or by
exactly one, and in the latter case `filled_seats < total_seats` held
before the commit. -/
theorem c1_capacity_ledger (db : DB) (h : Reachable db) :
    (∀ d ∈ db.departments, d.filled_seats ≤ d.total_seats ∧
      d.filled_seats = (allocCount db.allocations d.department_id : Int)) ∧
    (∀ sid status mailOk db' msgs,
      approve_documents db sid status mailOk = .ok (db', msgs) →
      ∀ d' ∈ db'.departments, ∀ d ∈ db.departments, d'.department_id = d.department_id →
        d'.filled_seats = d.filled_seats ∨
        (d'.filled_seats = d.filled_seats + 1 ∧ d.filled_seats < d.total_seats)) := by
  obtain ⟨hnodup, hboot, hinv⟩ := deptInv_reachable db h
  refine ⟨hinv, ?_⟩
  intro sid status mailOk db' msgs heq d' hd' d hd hid
  obtain ⟨app, happ, hcase⟩ := approve_documents_ok_cases heq
  rcases hcase with ⟨-, rfl⟩ | ⟨-, dept, hdept, ⟨hcap, rfl⟩ | ⟨hcap, rfl⟩⟩
  · left
    rw [List.inj_on_of_nodup_map hnodup hd' hd hid]
  · have hdmem : dept ∈ db.departments := List.mem_of_find?_eq_some hdept
    obtain ⟨c, hc, rfl⟩ := List.mem_map.mp hd'
    by_cases hci : c.department_id = dept.department_id
    · have hcd : c = dept := List.inj_on_of_nodup_map hnodup hc hdmem hci
      rw [if_pos hci] at hid ⊢
      have hdc : d = c := List.inj_on_of_nodup_map hnodup hd hc hid.symm
      right
      refine ⟨by rw [hdc], ?_⟩
      rw [hdc, hcd]
      exact hcap
    · rw [if_neg hci] at hid ⊢
      left
      rw [List.inj_on_of_nodup_map hnodup hc hd hid]
  · left
    rw [List.inj_on_of_nodup_map hnodup hd' hd hid]

/-- C1 witness —: in the reachable state `dbApproved` the CS row has
one filled seat, within capacity and equal to its `"Allocated"` count. -/
theorem c1_capacity_ledger_witness :
    ({ department_id := 1, department_name := "CS", total_seats := 300
       filled_seats := 1 } : Department).filled_seats ≤
      ({ department_id := 1, department_name := "CS", total_seats := 300
         filled_seats := 1 } : Department).total_seats ∧
    ({ department_id := 1, department_name := "CS", total_seats := 300
       filled_seats := 1 } : Department).filled_seats =
      (allocCount dbApproved.allocations 1 : Int) :=
  (c1_capacity_ledger dbApproved reachable_dbApproved).1
    { department_id := 1, department_name := "CS", total_seats := 300, filled_seats := 1 }
    (by decide)

/-- C3 counterexample —: the reachable state
`dbRejectedKeepsAllocation` — obtained by bootstrapping, submitting,
approving (which creates an `"Allocated"` allocation) and then
re-reviewing the same application with `"Rejected"` — contains an
allocation whose application has `document_status = "Rejected"`, so it
is false that in every reachable state every allocation references an
`"Approved"` application. -/
theorem c3_allocation_approved_counterexample :
    ¬ (∀ db, Reachable db → ∀ al ∈ db.allocations,
        ∃ app, app ∈ db.applications ∧ app.application_id = al.application_id ∧
          app.document_status = "Approved") := by
  intro hclaim
  obtain ⟨app, hmem, hid, hstatus⟩ :=
    hclaim dbRejectedKeepsAllocation reachable_dbRejectedKeepsAllocation
      { allocation_id := 1, application_id := 1, department_id := 1
        allocation_status := "Allocated" }
      (by decide)
  have : app = { pendingA with document_status := "Rejected" } := by
    simpa [dbRejectedKeepsAllocation] using hmem
  rw [this] at hstatus
  exact absurd hstatus (by decide)

/-- C3 (amended) —: every allocation row references an `"Approved"`
application *at the moment it is created*: after any successful review,
each allocation of the new state either already existed beforehand or
references an application whose `document_status` is `"Approved"` in
the new state.  (The unamended claim fails because a later `"Rejected"`
re-review changes the application's status while the allocation row
persists.) -/
theorem c3_allocation_approved_at_creation (db : DB) (sid : Nat) (status : String)
    (mailOk : Nat → Bool) (db' : DB) (msgs : List Message)
    (h : approve_documents db sid status mailOk = .ok (db', msgs)) :
    ∀ al ∈ db'.allocations, al ∈ db.allocations ∨
      ∃ app, app ∈ db'.applications ∧ app.application_id = al.application_id ∧
        app.document_status = "Approved" := by
  obtain ⟨app, happ, hcase⟩ := approve_documents_ok_cases h
  have happmem : app ∈ db.applications := List.mem_of_find?_eq_some happ
  rcases hcase with ⟨-, rfl⟩ | ⟨happr, dept, hdept, ⟨hcap, rfl⟩ | ⟨hcap, rfl⟩⟩
  · exact fun al hal => Or.inl hal
  · intro al hal
    rcases List.mem_append.mp hal with h1 | h2
    · exact Or.inl h1
    · right
      have hale : al =
          { allocation_id := db.nextAllocationId, application_id := app.application_id,
            department_id := dept.department_id, allocation_status := "Allocated" } := by
        simpa using h2
      subst happr
      refine ⟨{ app with document_status := "Approved" }, ?_, ?_, rfl⟩
      · exact List.mem_map.mpr ⟨app, happmem, by rw [if_pos rfl]⟩
      · rw [hale]
  · intro al hal
    rcases List.mem_append.mp hal with h1 | h2
    · exact Or.inl h1
    · right
      have hale : al =
          { allocation_id := db.nextAllocationId, application_id := app.application_id,
            department_id := dept.department_id, allocation_status := "Not Allocated" } := by
        simpa using h2
      subst happr
      refine ⟨{ app with document_status := "Approved" }, ?_, ?_, rfl⟩
      · exact List.mem_map.mpr ⟨app, happmem, by rw [if_pos rfl]⟩
      · rw [hale]

/-- C3 witness —: the allocation created by approving student 1 in
`dbSubmitted` references an application that is `"Approved"` in the
resulting state `dbApproved`. -/
theorem c3_allocation_approved_at_creation_witness :
    ({ allocation_id := 1, application_id := 1, department_id := 1
       allocation_status := "Allocated" } : Allocation) ∈ dbSubmitted.allocations ∨
      ∃ app, app ∈ dbApproved.applications ∧ app.application_id = 1 ∧
        app.document_status = "Approved" :=
  c3_allocation_approved_at_creation dbSubmitted 1 "Approved" (fun _ => false)
    dbApproved [] rfl
    { allocation_id := 1, application_id := 1, department_id := 1
      allocation_status := "Allocated" }
    (by decide)

end Admission
